import Mathlib

/-!
Settings background widget (`settings/settings_background_widget.cpp`).

A shallow embedding of `Settings::BackgroundRow` and `Settings::BackgroundWidget`:
the thumbnail row with its radial spinner, and the panel that ingests a chosen
background file, toggles tiling and the wide layout.

Conventions of the embedding:

* C++ `int` is a mathematical integer reduced to the signed 32-bit range after
  every arithmetic operation (`wrap32`); `/` truncates toward zero.
* The widgets, the background store and the globals they read live in one
  record, `World`; every member function is a function on `World`.
* Toolkit and application code outside this file (the `App::main()` provider,
  `Ui::RadialAnimation`, the image decoder, `QString::endsWith`) is a parameter,
  collected in `Env`.
* `updateImage` and `radialLoading` call each other; the recursion is driven by
  a fuel counter that bounds the nesting depth of `updateImage`, and the
  theorems show that depth two always suffices.
-/

namespace Settings

/-! ## Machine integers -/

/-- Reduction of a mathematical integer to the signed 32-bit range (two's complement). -/
def wrap32 (z : Int) : Int := (z + 2147483648) % 4294967296 - 2147483648

/-- The values an `int` can hold. -/
def isInt32 (z : Int) : Prop := -2147483648 ≤ z ∧ z < 2147483648

instance (z : Int) : Decidable (isInt32 z) := by unfold isInt32; infer_instance

/-- Product of two `int`s. -/
def mul32 (a b : Int) : Int := wrap32 (a * b)

/-- Difference of two `int`s. -/
def sub32 (a b : Int) : Int := wrap32 (a - b)

/-- Quotient of two `int`s, truncated toward zero. -/
def div32 (a b : Int) : Int := wrap32 (Int.tdiv a b)

/-! ## Images -/

/-- What the embedding keeps of a `QImage`: whether it is null, its size, and where
its top-left pixel lies in the coordinates of the image that was decoded (so that a
crop remembers which sub-rectangle of the decoded image it is). -/
structure QImage where
  null : Bool
  left : Int
  top : Int
  width : Int
  height : Int
deriving DecidableEq

/-- The default-constructed `QImage()`: null, of size 0 x 0. -/
def QImage.nullImage : QImage := ⟨true, 0, 0, 0, 0⟩

/-- Toolkit call `QImage::copy(x, y, w, h)`: a null image or a rectangle with a
non-positive side gives the null image, the null rectangle (`w = 0` and `h = 0`)
gives the whole image, and otherwise the result always has the given width and
height and starts at `(x, y)` of the source. -/
def QImage.copy (img : QImage) (x y w h : Int) : QImage :=
  if img.null then QImage.nullImage
  else if w = 0 ∧ h = 0 then img
  else if w ≤ 0 ∨ h ≤ 0 then QImage.nullImage
  else ⟨false, img.left + x, img.top + y, w, h⟩

/-- Toolkit limit on what a `QImage` can hold (Qt 5): its pixel data takes at most
`INT_MAX` bytes and every pixel takes at least one bit, so an image of width `w` and
height `h` exists only if `w * h <= 8 * INT_MAX = 17179869176`. Every image a decoder
returns is within it. -/
def QImage.holdable (img : QImage) : Prop := img.width * img.height ≤ 17179869176

instance (img : QImage) : Decidable img.holdable := by
  unfold QImage.holdable
  infer_instance

/-- The cached thumbnail `_background`: the pixmap it was painted from and the
source rectangle `(sx, sy, s, s)` of that pixmap that was drawn into it. -/
structure Thumb where
  pix : QImage
  sx : Int
  sy : Int
  s : Int
deriving DecidableEq

/-! ## Events and faults -/

/-- Calls into collaborators that leave a trace. -/
inductive Event where
  /-- Mirrors `Window::Theme::Background()->setImage(kCustomBackground, img)` -/
  | setImage (img : QImage)
  /-- Mirrors `Window::Theme::Background()->setTile(b)` -/
  | setTile (b : Bool)
  /-- Mirrors `Window::Theme::Apply(path)` -/
  | applyTheme (path : String)
  /-- Mirrors `Window::Theme::ApplyDefault()` -/
  | applyDefault
  /-- Mirrors `Adaptive::Changed().notify()` -/
  | adaptiveChanged
  /-- Mirrors `Local::writeUserSettings()` -/
  | writeUserSettings
  /-- One execution of the painting block of `updateImage`: the thumbnail is regenerated. -/
  | thumbnail
  /-- Mirrors `rtlupdate(radialRect())` -/
  | rtlupdate
  /-- Mirrors `resizeToWidth(width())` -/
  | resize
deriving DecidableEq

/-- Ways in which a run of the model can fail to produce a state. -/
inductive Fault where
  /-- A call of `QList::front()` on an empty list, which is undefined. -/
  | frontOfEmptyList
  /-- The fuel bounding the nesting of `updateImage` ran out. -/
  | fuel
deriving DecidableEq

/-- The kinds of `Window::Theme::BackgroundUpdate` this file distinguishes; every
other kind is `other`. -/
inductive BackgroundUpdateType where
  | New
  | Start
  | ApplyingTheme
  | other
deriving DecidableEq

/-- A `Window::Theme::BackgroundUpdate`. -/
structure BackgroundUpdate where
  type : BackgroundUpdateType
  tiled : Bool
deriving DecidableEq

/-- A `FileDialog::QueryUpdate`. -/
structure QueryUpdate where
  queryId : Nat
  filePaths : List String
  remoteContent : List UInt8

/-! ## Collaborators -/

/-- Code this file calls but does not contain. -/
structure Env where
  /-- The type `float64`; its values are only handed on, never computed with. -/
  F : Type
  /-- The literal `1.` -/
  one : F
  /-- The state of the `MainWidget` behind `App::main()`. -/
  Main : Type
  chatBackgroundLoading : Main → Bool
  chatBackgroundProgress : Main → F
  checkChatBackground : Main → Main
  /-- The type `Ui::RadialAnimation`. -/
  Radial : Type
  /-- A freshly constructed `Ui::RadialAnimation`. -/
  radialInit : Radial
  animating : Radial → Bool
  /-- Mirrors `start(prg)`, which reads the clock. -/
  start : F → Int → Radial → Radial
  /-- Mirrors `update(prg, finished, ms)` -/
  update : F → Bool → Int → Radial → Radial
  /-- The constant `st::radialDuration`. -/
  radialDuration : Int
  /-- Mirrors `path.endsWith(".tdesktop-theme", Qt::CaseInsensitive)` -/
  endsWithTheme : String → Bool
  /-- Mirrors `App::readImage(bytes)` -/
  readImageContent : List UInt8 → QImage
  /-- Mirrors `App::readImage(path)` -/
  readImageFile : String → QImage
  /-- C++ leaves the order in which the arguments of one call are evaluated open;
  `true` evaluates them from the last to the first. -/
  rightToLeft : Bool

/-- Everything the two widgets read or write. -/
structure World (E : Env) where
  /-- Mirrors `App::main()`, which may be null. -/
  main : Option E.Main
  /-- Mirrors `getms()` -/
  now : Int
  /-- Mirrors `Local::hasTheme()` -/
  hasTheme : Bool
  /-- Mirrors `Window::Theme::Background()->pixmap()` -/
  pixmap : QImage
  /-- Mirrors `Window::Theme::Background()->tile()` -/
  tile : Bool
  /-- Mirrors `Global::AdaptiveForWide()` -/
  adaptiveForWide : Bool
  /-- Mirrors `Global::AdaptiveChatLayout() == Adaptive::ChatLayout::Wide` -/
  chatLayoutWide : Bool
  /-- Whether `BackgroundRow::_useDefaultTheme` is not null. -/
  useDefaultTheme : Bool
  /-- Mirrors `BackgroundRow::_radial` -/
  radial : E.Radial
  /-- Mirrors `BackgroundRow::_background` -/
  background : Thumb
  /-- Mirrors `BackgroundWidget::_chooseFromFileQueryId` -/
  chooseFromFileQueryId : Nat
  /-- Mirrors `_tile->checked()` -/
  tileChecked : Bool
  /-- Mirrors `_adaptive->entity()->checked()` -/
  adaptiveChecked : Bool
  /-- The wrap around `_adaptive` is slid into view. -/
  adaptiveShown : Bool
  /-- The calls into collaborators made so far, oldest first. -/
  log : List Event

variable {E : Env}

/-! ## `BackgroundRow` -/

namespace BackgroundRow

/-- Mirrors `BackgroundRow::checkNonDefaultTheme` -/
def checkNonDefaultTheme (s : World E) : World E :=
  if s.hasTheme then
    if !s.useDefaultTheme then
      { s with useDefaultTheme := true, log := s.log ++ [Event.resize] }
    else s
  else if s.useDefaultTheme then
    { s with useDefaultTheme := false, log := s.log ++ [Event.resize] }
  else s

/-- Mirrors `BackgroundRow::radialProgress` -/
def radialProgress (s : World E) : E.F :=
  match s.main with
  | some m => E.chatBackgroundProgress m
  | none => E.one

/-- Mirrors `BackgroundRow::radialLoading`, with the `updateImage` it calls back passed in. -/
def radialLoadingWith (upd : World E → Except Fault (World E)) (s : World E) :
    Except Fault (Bool × World E) :=
  match s.main with
  | some m =>
    if E.chatBackgroundLoading m then
      let s1 : World E := { s with main := some (E.checkChatBackground m) }
      if E.chatBackgroundLoading (E.checkChatBackground m) then
        Except.ok (true, s1)
      else
        match upd s1 with
        | Except.ok s2 => Except.ok (false, s2)
        | Except.error f => Except.error f
    else Except.ok (false, s)
  | none => Except.ok (false, s)

/-- Mirrors `BackgroundRow::radialTimeShift` -/
def radialTimeShift (E : Env) : Int := E.radialDuration

/-- Mirrors `BackgroundRow::radialStart`, with the `updateImage` it calls back passed in. -/
def radialStartWith (upd : World E → Except Fault (World E)) (s : World E) :
    Except Fault (World E) :=
  match radialLoadingWith upd s with
  | Except.error f => Except.error f
  | Except.ok (loading, s1) =>
    if loading && !E.animating s1.radial then
      let s2 : World E := { s1 with radial := E.start (radialProgress s1) s1.now s1.radial }
      if radialTimeShift E ≠ 0 then
        match radialLoadingWith upd s2 with
        | Except.error f => Except.error f
        | Except.ok (loading3, s3) =>
          let prg := if E.rightToLeft then radialProgress s3 else radialProgress s2
          Except.ok { s3 with
            radial := E.update prg (!loading3) (s3.now + radialTimeShift E) s3.radial }
      else Except.ok s2
    else Except.ok s1

/-- The source rectangle `(sx, sy, s)` that `updateImage` draws from a pixmap of the
given width and height. -/
def sourceRect (w h : Int) : Int × Int × Int :=
  (if w > h then div32 (sub32 w h) 2 else 0,
   if h > w then div32 (sub32 h w) 2 else 0,
   if w > h then h else w)

/-- The painting block of `BackgroundRow::updateImage`, up to `rtlupdate(radialRect())`. -/
def repaintThumb (s : World E) : World E :=
  let r := sourceRect s.pixmap.width s.pixmap.height
  { s with
    background := ⟨s.pixmap, r.1, r.2.1, r.2.2⟩,
    log := s.log ++ [Event.thumbnail, Event.rtlupdate] }

/-- Mirrors `BackgroundRow::updateImage` -/
def updateImage : Nat → World E → Except Fault (World E)
  | 0, _ => Except.error Fault.fuel
  | n + 1, s =>
    match radialLoadingWith (updateImage n) (repaintThumb s) with
    | Except.error f => Except.error f
    | Except.ok (loading, s2) =>
      if loading then radialStartWith (updateImage n) s2 else Except.ok s2

/-- Mirrors `BackgroundRow::radialLoading` -/
def radialLoading (fuel : Nat) (s : World E) : Except Fault (Bool × World E) :=
  radialLoadingWith (updateImage fuel) s

/-- Mirrors `BackgroundRow::radialStart` -/
def radialStart (fuel : Nat) (s : World E) : Except Fault (World E) :=
  radialStartWith (updateImage fuel) s

/-- Mirrors `BackgroundRow::step_radial` -/
def step_radial (fuel : Nat) (ms : Int) (timer : Bool) (s : World E) :
    Except Fault (World E) :=
  match radialLoading fuel s with
  | Except.error f => Except.error f
  | Except.ok (loading, s1) =>
    let prg := if E.rightToLeft then radialProgress s1 else radialProgress s
    let s2 : World E :=
      { s1 with radial := E.update prg (!loading) (ms + radialTimeShift E) s1.radial }
    if timer && E.animating s2.radial then
      Except.ok { s2 with log := s2.log ++ [Event.rtlupdate] }
    else Except.ok s2

/-- The constructor `BackgroundRow::BackgroundRow`: fresh members, `updateImage()`,
then `checkNonDefaultTheme()`. -/
def construct (fuel : Nat) (s : World E) : Except Fault (World E) :=
  match updateImage fuel { s with useDefaultTheme := false, radial := E.radialInit } with
  | Except.error f => Except.error f
  | Except.ok s1 => Except.ok (checkNonDefaultTheme s1)

/-- The subscription to `Window::Theme::Background()` made in the constructor. -/
def onBackgroundUpdate (update : BackgroundUpdate) (s : World E) : World E :=
  if update.type = BackgroundUpdateType.ApplyingTheme then checkNonDefaultTheme s else s

end BackgroundRow

/-! ## `BackgroundWidget` -/

namespace BackgroundWidget

/-- Mirrors `BackgroundWidget::onTile` -/
def onTile (s : World E) : World E :=
  { s with tile := s.tileChecked, log := s.log ++ [Event.setTile s.tileChecked] }

/-- Modelled from the spec: `Ui::Checkbox::setChecked` of the tile checkbox, whose
code is in `ui/widgets/checkbox.cpp`. The spec has the panel force tiling off when
an image is accepted and sync the checkbox on a load start: a change of the checked
state runs the slot `onTile()` connected in `createControls`. -/
def setTileChecked (b : Bool) (s : World E) : World E :=
  if s.tileChecked ≠ b then onTile { s with tileChecked := b } else s

/-- Modelled from the spec: `Window::Theme::Background()->setImage(kCustomBackground, img)`,
whose code is in `window/window_theme.cpp`. The accepted image becomes the new
custom background, replacing the previous one. -/
def setImage (img : QImage) (s : World E) : World E :=
  { s with pixmap := img, log := s.log ++ [Event.setImage img] }

/-- Mirrors `BackgroundWidget::needBackgroundUpdate` -/
def needBackgroundUpdate (fuel : Nat) (tile : Bool) (s : World E) : Except Fault (World E) :=
  BackgroundRow.updateImage fuel (setTileChecked tile s)

/-- The subscription to `Window::Theme::Background()` made in the constructor. -/
def onBackgroundUpdate (fuel : Nat) (update : BackgroundUpdate) (s : World E) :
    Except Fault (World E) :=
  if update.type = BackgroundUpdateType.New then BackgroundRow.updateImage fuel s
  else if update.type = BackgroundUpdateType.Start then needBackgroundUpdate fuel update.tiled s
  else Except.ok s

/-- The subscription to `Adaptive::Changed()` made in the constructor. -/
def onAdaptiveChanged (s : World E) : World E :=
  if s.chatLayoutWide then { s with adaptiveShown := true }
  else { s with adaptiveShown := false }

/-- Mirrors `BackgroundWidget::onUseDefaultTheme` -/
def onUseDefaultTheme (s : World E) : World E :=
  { s with log := s.log ++ [Event.applyDefault] }

/-- The aspect-ratio step of `BackgroundWidget::notifyFileQueryUpdated`: both `if`
branches on `img.width()` and `img.height()` and the `img.copy` calls. -/
def cropAspect (img : QImage) : QImage :=
  if img.width > mul32 4096 img.height then
    img.copy (div32 (sub32 img.width (mul32 4096 img.height)) 2) 0
      (mul32 4096 img.height) img.height
  else if img.height > mul32 4096 img.width then
    img.copy 0 (div32 (sub32 img.height (mul32 4096 img.width)) 2)
      img.width (mul32 4096 img.width)
  else img

/-- The decoding step of `BackgroundWidget::notifyFileQueryUpdated`: the remote
content when there is some, the file at `filePath` otherwise. -/
def decodePayload (E : Env) (update : QueryUpdate) (filePath : String) : QImage :=
  if !update.remoteContent.isEmpty then E.readImageContent update.remoteContent
  else E.readImageFile filePath

/-- Mirrors `BackgroundWidget::notifyFileQueryUpdated` -/
def notifyFileQueryUpdated (fuel : Nat) (update : QueryUpdate) (s : World E) :
    Except Fault (World E) :=
  if s.chooseFromFileQueryId ≠ update.queryId then Except.ok s
  else
    let s0 : World E := { s with chooseFromFileQueryId := 0 }
    if update.filePaths.isEmpty && update.remoteContent.isEmpty then Except.ok s0
    else
      match update.filePaths.head? with
      | none => Except.error Fault.frontOfEmptyList
      | some filePath =>
        if E.endsWithTheme filePath then
          Except.ok { s0 with log := s0.log ++ [Event.applyTheme filePath] }
        else
          let img := decodePayload E update filePath
          if img.null || decide (img.width ≤ 0) || decide (img.height ≤ 0) then Except.ok s0
          else
            BackgroundRow.updateImage fuel
              (setTileChecked false (setImage (cropAspect img) s0))

/-- Mirrors `BackgroundWidget::onAdaptive`; the broadcast runs this widget's own subscriber. -/
def onAdaptive (s : World E) : World E :=
  if s.adaptiveForWide ≠ s.adaptiveChecked then
    let s1 : World E := { s with adaptiveForWide := s.adaptiveChecked }
    let s2 : World E := onAdaptiveChanged { s1 with log := s1.log ++ [Event.adaptiveChanged] }
    { s2 with log := s2.log ++ [Event.writeUserSettings] }
  else s

end BackgroundWidget

/-! ## Vocabulary of the statements -/

/-- The provider reports a load in progress: `App::main()` exists and its
`chatBackgroundLoading()` is true. -/
def providerLoading (E : Env) : Option E.Main → Bool
  | some m => E.chatBackgroundLoading m
  | none => false

/-- A background load is in progress in this state. -/
def loadingNow (s : World E) : Bool := providerLoading E s.main

/-- A run of later `step_radial` ticks. Each tick carries the state the provider
behind `App::main()` has reached by itself since the previous one, the time stamp
and the timer flag. -/
def laterTicks (fuel : Nat) : List (Option E.Main × Int × Bool) → World E →
    Except Fault (World E)
  | [], s => Except.ok s
  | (m, ms, timer) :: rest, s =>
    match BackgroundRow.step_radial fuel ms timer { s with main := m } with
    | Except.error f => Except.error f
    | Except.ok s1 => laterTicks fuel rest s1

/-- The state `t` has the trace of `s` followed only by thumbnail repaints and
`rtlupdate` calls. -/
def paintsAfter (s t : World E) : Prop :=
  ∃ l, t.log = s.log ++ l ∧ ∀ e ∈ l, e = Event.thumbnail ∨ e = Event.rtlupdate

/-- Number of thumbnail regenerations recorded so far. -/
def regenerations (s : World E) : Nat := s.log.count Event.thumbnail

/-- The part of the state that the row's spinner logic never writes: the theme flag,
the store's pixmap and tile flag, the clock, the layout flags, the link, the pending
query and the checkboxes. -/
def frame (s : World E) :
    Bool × QImage × Bool × Int × Bool × Bool × Bool × Nat × Bool × Bool × Bool :=
  (s.hasTheme, s.pixmap, s.tile, s.now, s.adaptiveForWide, s.chatLayoutWide,
    s.useDefaultTheme, s.chooseFromFileQueryId, s.tileChecked, s.adaptiveChecked,
    s.adaptiveShown)

/-- The cached thumbnail is the one `updateImage` paints from the current pixmap. -/
def thumbFresh (s : World E) : Prop :=
  s.background = (BackgroundRow.repaintThumb s).background

/-- Closed form of one `radialLoading` call: the answer and the state it leaves. -/
def loadingOutcome (s : World E) : Bool × World E :=
  match s.main with
  | some m =>
    if E.chatBackgroundLoading m then
      if E.chatBackgroundLoading (E.checkChatBackground m) then
        (true, { s with main := some (E.checkChatBackground m) })
      else
        (false, BackgroundRow.repaintThumb { s with main := some (E.checkChatBackground m) })
    else (false, s)
  | none => (false, s)

/-- Closed form of one `radialStart` call. -/
def startOutcome (s : World E) : World E :=
  let r := loadingOutcome s
  if r.1 && !E.animating r.2.radial then
    let s2 : World E :=
      { r.2 with radial := E.start (BackgroundRow.radialProgress r.2) r.2.now r.2.radial }
    if BackgroundRow.radialTimeShift E ≠ 0 then
      let r3 := loadingOutcome s2
      let prg :=
        if E.rightToLeft then BackgroundRow.radialProgress r3.2
        else BackgroundRow.radialProgress s2
      { r3.2 with
        radial := E.update prg (!r3.1) (r3.2.now + BackgroundRow.radialTimeShift E) r3.2.radial }
    else s2
  else r.2

/-- Closed form of one `updateImage` call. -/
def updateOutcome (s : World E) : World E :=
  let r := loadingOutcome (BackgroundRow.repaintThumb s)
  if r.1 then startOutcome r.2 else r.2

/-! ## A concrete instance -/

/-- A small instance of the collaborators: the provider counts the polls a load still
needs, the spinner keeps its animating flag and the last progress it was given, and
the decoder knows a handful of files by name. -/
@[reducible]
def sampleEnv : Env where
  F := Nat
  one := 100
  Main := Nat
  chatBackgroundLoading m := m != 0
  chatBackgroundProgress m := 100 - m
  checkChatBackground m := m - 1
  Radial := Bool × Nat
  radialInit := (false, 0)
  animating r := r.1
  start prg _ _ := (true, prg)
  update prg finished _ r := (r.1 && !finished, prg)
  radialDuration := 350
  endsWithTheme p := decide (p = "night.tdesktop-theme")
  readImageContent bytes := if bytes.isEmpty then QImage.nullImage else ⟨false, 0, 0, 640, 480⟩
  readImageFile p :=
    if p = "wide.png" then ⟨false, 0, 0, 300000, 50⟩
    else if p = "plain.png" then ⟨false, 0, 0, 10000, 50⟩
    else if p = "strip.png" then ⟨false, 0, 0, 5000, 1048577⟩
    else if p = "thread.png" then ⟨false, 0, 0, 1, 1048576⟩
    else if p = "slab.png" then ⟨false, 0, 0, 200, 524288⟩
    else QImage.nullImage
  rightToLeft := false

/-- A state of the sample instance: no load in progress, a 1920 x 1080 background,
tiling on, and the file query number 7 outstanding. -/
def sampleWorld : World sampleEnv where
  main := some (0 : Nat)
  now := 1000
  hasTheme := true
  pixmap := ⟨false, 0, 0, 1920, 1080⟩
  tile := true
  adaptiveForWide := false
  chatLayoutWide := true
  useDefaultTheme := false
  radial := (false, 0)
  background := ⟨⟨false, 0, 0, 1920, 1080⟩, 420, 0, 1080⟩
  chooseFromFileQueryId := 7
  tileChecked := true
  adaptiveChecked := true
  adaptiveShown := true
  log := []

/-- The sample state with a load that the next poll finds finished. -/
def sampleLoading : World sampleEnv := { sampleWorld with main := some (1 : Nat) }

/-! ## Machine-integer lemmas -/

theorem wrap32_of_isInt32 (z : Int) (h : isInt32 z) : wrap32 z = z := by
  unfold isInt32 at h
  unfold wrap32
  omega

theorem div32_two_of_nonneg (z : Int) (h0 : 0 ≤ z) (h : z < 2147483648) :
    div32 z 2 = z / 2 := by
  unfold div32
  rw [Int.tdiv_eq_ediv h0 (by decide)]
  apply wrap32_of_isInt32
  unfold isInt32
  omega

/-! ## The recursion between `updateImage` and `radialLoading` ends -/

theorem radialLoadingWith_idle (upd : World E → Except Fault (World E)) (s : World E)
    (h : loadingNow s = false) :
    BackgroundRow.radialLoadingWith upd s = Except.ok (false, s) := by
  unfold loadingNow providerLoading at h
  unfold BackgroundRow.radialLoadingWith
  cases hm : s.main with
  | none => rfl
  | some m =>
    rw [hm] at h
    simp only at h
    simp [h]

theorem loadingNow_repaintThumb (s : World E) :
    loadingNow (BackgroundRow.repaintThumb s) = loadingNow s := rfl

theorem updateImage_idle (n : Nat) (s : World E) (h : loadingNow s = false) :
    BackgroundRow.updateImage (n + 1) s = Except.ok (BackgroundRow.repaintThumb s) := by
  unfold BackgroundRow.updateImage
  rw [radialLoadingWith_idle _ _ (by rw [loadingNow_repaintThumb]; exact h)]
  rfl

theorem radialLoading_eq (n : Nat) (s : World E) :
    BackgroundRow.radialLoading (n + 1) s = Except.ok (loadingOutcome s) := by
  unfold BackgroundRow.radialLoading BackgroundRow.radialLoadingWith loadingOutcome
  cases hm : s.main with
  | none => rfl
  | some m =>
    by_cases h1 : E.chatBackgroundLoading m = true
    · by_cases h2 : E.chatBackgroundLoading (E.checkChatBackground m) = true
      · simp [h1, h2]
      · have h2f : E.chatBackgroundLoading (E.checkChatBackground m) = false := by
          simpa using h2
        have hidle : loadingNow ({ s with main := some (E.checkChatBackground m) } : World E)
            = false := h2f
        simp only [h1, h2f, if_true]
        rw [updateImage_idle n _ hidle]
        rfl
    · simp [h1]

theorem radialLoadingWith_eq (n : Nat) (s : World E) :
    BackgroundRow.radialLoadingWith (BackgroundRow.updateImage (n + 1)) s
      = Except.ok (loadingOutcome s) :=
  radialLoading_eq n s

theorem radialStart_eq (n : Nat) (s : World E) :
    BackgroundRow.radialStart (n + 1) s = Except.ok (startOutcome s) := by
  unfold BackgroundRow.radialStart BackgroundRow.radialStartWith startOutcome
  simp only [radialLoadingWith_eq]
  rcases hlo : loadingOutcome s with ⟨l, s1⟩
  simp only
  split
  · split
    · rcases hlo3 : loadingOutcome _ with ⟨l3, s3⟩
      rfl
    · rfl
  · rfl

theorem updateImage_eq (n : Nat) (s : World E) :
    BackgroundRow.updateImage (n + 2) s = Except.ok (updateOutcome s) := by
  unfold BackgroundRow.updateImage updateOutcome
  simp only [radialLoadingWith_eq]
  rcases hlo : loadingOutcome (BackgroundRow.repaintThumb s) with ⟨l, s1⟩
  simp only
  split
  · exact radialStart_eq n s1
  · rfl

/-! ## What one `radialLoading` call leaves alone -/

theorem loadingOutcome_idle (s : World E) (h : loadingNow s = false) :
    loadingOutcome s = (false, s) := by
  unfold loadingNow providerLoading at h
  unfold loadingOutcome
  cases hm : s.main with
  | none => rfl
  | some m =>
    rw [hm] at h
    simp only at h
    simp [h]

theorem loadingOutcome_true (s : World E) (h : (loadingOutcome s).1 = true) :
    loadingNow s = true := by
  cases hl : loadingNow s with
  | true => rfl
  | false =>
    rw [loadingOutcome_idle s hl] at h
    exact absurd h Bool.false_ne_true

theorem loadingOutcome_radial (s : World E) : (loadingOutcome s).2.radial = s.radial := by
  unfold loadingOutcome
  split
  · split
    · split <;> rfl
    · rfl
  · rfl

theorem loadingOutcome_now (s : World E) : (loadingOutcome s).2.now = s.now := by
  unfold loadingOutcome
  split
  · split
    · split <;> rfl
    · rfl
  · rfl

theorem loadingOutcome_pixmap (s : World E) : (loadingOutcome s).2.pixmap = s.pixmap := by
  unfold loadingOutcome
  split
  · split
    · split <;> rfl
    · rfl
  · rfl

theorem loadingOutcome_frame (s : World E) : frame (loadingOutcome s).2 = frame s := by
  unfold loadingOutcome
  split
  · split
    · split <;> rfl
    · rfl
  · rfl

theorem loadingOutcome_thumbFresh (s : World E) (h : thumbFresh s) :
    thumbFresh (loadingOutcome s).2 := by
  unfold loadingOutcome
  split
  · split
    · split
      · exact h
      · rfl
    · exact h
  · exact h

theorem startOutcome_frame (s : World E) : frame (startOutcome s) = frame s := by
  unfold startOutcome
  simp only []
  split
  · split
    · exact (loadingOutcome_frame _).trans (loadingOutcome_frame s)
    · exact loadingOutcome_frame s
  · exact loadingOutcome_frame s

theorem startOutcome_thumbFresh (s : World E) (h : thumbFresh s) :
    thumbFresh (startOutcome s) := by
  unfold startOutcome
  simp only []
  split
  · split
    · exact loadingOutcome_thumbFresh _ (loadingOutcome_thumbFresh s h)
    · exact loadingOutcome_thumbFresh s h
  · exact loadingOutcome_thumbFresh s h

theorem updateOutcome_frame (s : World E) : frame (updateOutcome s) = frame s := by
  unfold updateOutcome
  simp only []
  split
  · exact (startOutcome_frame _).trans (loadingOutcome_frame _)
  · exact loadingOutcome_frame _

theorem updateOutcome_thumbFresh (s : World E) : thumbFresh (updateOutcome s) := by
  have h0 : thumbFresh (BackgroundRow.repaintThumb s) := rfl
  unfold updateOutcome
  simp only []
  split
  · exact startOutcome_thumbFresh _ (loadingOutcome_thumbFresh _ h0)
  · exact loadingOutcome_thumbFresh _ h0

theorem updateOutcome_hasTheme (s : World E) : (updateOutcome s).hasTheme = s.hasTheme :=
  congrArg (fun x => x.1) (updateOutcome_frame s)

theorem updateOutcome_pixmap (s : World E) : (updateOutcome s).pixmap = s.pixmap :=
  congrArg (fun x => x.2.1) (updateOutcome_frame s)

theorem updateOutcome_background (s : World E) :
    (updateOutcome s).background = (BackgroundRow.repaintThumb s).background := by
  have h := updateOutcome_thumbFresh s
  unfold thumbFresh at h
  rw [h]
  unfold BackgroundRow.repaintThumb
  simp only [updateOutcome_pixmap]

theorem checkNonDefaultTheme_link (s : World E) :
    (BackgroundRow.checkNonDefaultTheme s).useDefaultTheme = s.hasTheme ∧
      (BackgroundRow.checkNonDefaultTheme s).hasTheme = s.hasTheme := by
  unfold BackgroundRow.checkNonDefaultTheme
  cases h1 : s.hasTheme <;> cases h2 : s.useDefaultTheme <;> simp [h1, h2]

theorem sourceRect_spec (w h : Int) (hw : 0 ≤ w) (hh : 0 ≤ h)
    (hw32 : isInt32 w) (hh32 : isInt32 h) :
    BackgroundRow.sourceRect w h
      = (if w > h then (w - h) / 2 else 0, if h > w then (h - w) / 2 else 0, min w h) := by
  unfold isInt32 at hw32 hh32
  unfold BackgroundRow.sourceRect sub32
  have e1 : wrap32 (w - h) = w - h := wrap32_of_isInt32 _ (by unfold isInt32; omega)
  have e2 : wrap32 (h - w) = h - w := wrap32_of_isInt32 _ (by unfold isInt32; omega)
  rw [e1, e2]
  by_cases c1 : w > h
  · have c2 : ¬ h > w := by omega
    have hmin : min w h = h := min_eq_right (by omega)
    simp only [c1, c2, if_true, if_false, hmin]
    rw [div32_two_of_nonneg _ (by omega) (by omega)]
  · by_cases c2 : h > w
    · have hmin : min w h = w := min_eq_left (by omega)
      simp only [c1, c2, if_true, if_false, hmin]
      rw [div32_two_of_nonneg _ (by omega) (by omega)]
    · have hmin : min w h = w := min_eq_left (by omega)
      simp only [c1, c2, if_false, hmin]

theorem startOutcome_radial_unchanged (s : World E)
    (h : E.animating s.radial = true ∨ loadingNow s = false) :
    (startOutcome s).radial = s.radial := by
  unfold startOutcome
  simp only []
  split
  · rename_i hc
    rw [Bool.and_eq_true, loadingOutcome_radial] at hc
    have hl := loadingOutcome_true s hc.1
    rcases h with h | h
    · rw [h] at hc
      exact absurd hc.2 (by decide)
    · rw [h] at hl
      exact absurd hl (by decide)
  · exact loadingOutcome_radial s

theorem regenerations_repaintThumb (s : World E) :
    regenerations (BackgroundRow.repaintThumb s) = regenerations s + 1 := by
  unfold regenerations BackgroundRow.repaintThumb
  simp [List.count_append, List.count_cons]

theorem step_radial_idle (k : Nat) (ms : Int) (timer : Bool) (t : World E)
    (h : loadingNow t = false) :
    ∃ t', BackgroundRow.step_radial k ms timer t = Except.ok t' ∧
      t'.main = t.main ∧ regenerations t' = regenerations t := by
  unfold BackgroundRow.step_radial BackgroundRow.radialLoading
  rw [radialLoadingWith_idle _ t h]
  simp only []
  split_ifs
  all_goals first
    | exact ⟨_, rfl, rfl, rfl⟩
    | (refine ⟨_, rfl, rfl, ?_⟩
       unfold regenerations
       simp [List.count_append, List.count_cons])

theorem laterTicks_idle (k : Nat) (ticks : List (Option E.Main × Int × Bool))
    (hticks : ∀ x ∈ ticks, providerLoading E x.1 = false) (s : World E) :
    ∃ t, laterTicks k ticks s = Except.ok t ∧ regenerations t = regenerations s := by
  induction ticks generalizing s with
  | nil => exact ⟨s, rfl, rfl⟩
  | cons x rest ih =>
    obtain ⟨m, ms, timer⟩ := x
    have hx : providerLoading E m = false := hticks (m, ms, timer) (List.mem_cons_self _ _)
    obtain ⟨s1, hs1, _, hr1⟩ :=
      step_radial_idle k ms timer ({ s with main := m } : World E) hx
    obtain ⟨t, ht, hrt⟩ := ih (fun y hy => hticks y (List.mem_cons_of_mem _ hy)) s1
    refine ⟨t, ?_, hrt.trans hr1⟩
    unfold laterTicks
    rw [hs1]
    exact ht

/-! ## The paths through `notifyFileQueryUpdated` -/

theorem notify_accept (n : Nat) (update : QueryUpdate) (s : World E) (p : String)
    (ps : List String) (hid : s.chooseFromFileQueryId = update.queryId)
    (hpaths : update.filePaths = p :: ps) (hnot : E.endsWithTheme p = false)
    (hnull : (BackgroundWidget.decodePayload E update p).null = false)
    (hw : 0 < (BackgroundWidget.decodePayload E update p).width)
    (hh : 0 < (BackgroundWidget.decodePayload E update p).height) :
    BackgroundWidget.notifyFileQueryUpdated (n + 2) update s
      = Except.ok (updateOutcome (BackgroundWidget.setTileChecked false
          (BackgroundWidget.setImage
            (BackgroundWidget.cropAspect (BackgroundWidget.decodePayload E update p))
            { s with chooseFromFileQueryId := 0 }))) := by
  unfold BackgroundWidget.notifyFileQueryUpdated
  have hw' : ¬ (BackgroundWidget.decodePayload E update p).width ≤ 0 := by omega
  have hh' : ¬ (BackgroundWidget.decodePayload E update p).height ≤ 0 := by omega
  simp only [hid, hpaths, ne_eq, not_true_eq_false, if_false, List.isEmpty_cons,
    Bool.false_and, List.head?_cons, hnot, hnull, hw', hh', decide_False, Bool.or_self,
    Bool.false_eq_true]
  exact updateImage_eq n _

theorem notify_front_of_empty (fuel : Nat) (update : QueryUpdate) (s : World E)
    (hid : s.chooseFromFileQueryId = update.queryId)
    (hpaths : update.filePaths = []) (hbytes : update.remoteContent ≠ []) :
    BackgroundWidget.notifyFileQueryUpdated fuel update s
      = Except.error Fault.frontOfEmptyList := by
  unfold BackgroundWidget.notifyFileQueryUpdated
  have hb : update.remoteContent.isEmpty = false := by
    cases hc : update.remoteContent with
    | nil => exact absurd hc hbytes
    | cons a l => rfl
  simp [hid, hpaths, hb]

/-! ## The aspect-ratio step where `4096 * side` fits in an `int` -/

theorem mul32_4096_small (z : Int) (h0 : 0 < z) (h : z < 524288) : mul32 4096 z = 4096 * z := by
  unfold mul32
  apply wrap32_of_isInt32
  unfold isInt32
  omega

theorem cropAspect_wide (img : QImage) (hnull : img.null = false) (hh : 0 < img.height)
    (hwide : img.width > 4096 * img.height) (hw32 : isInt32 img.width) :
    BackgroundWidget.cropAspect img
      = ⟨false, img.left + (img.width - 4096 * img.height) / 2, img.top + 0,
          4096 * img.height, img.height⟩ := by
  unfold isInt32 at hw32
  have hm : mul32 4096 img.height = 4096 * img.height :=
    mul32_4096_small _ hh (by omega)
  have hs : sub32 img.width (4096 * img.height) = img.width - 4096 * img.height := by
    unfold sub32
    apply wrap32_of_isInt32
    unfold isInt32
    omega
  have hd : div32 (img.width - 4096 * img.height) 2 = (img.width - 4096 * img.height) / 2 :=
    div32_two_of_nonneg _ (by omega) (by omega)
  unfold BackgroundWidget.cropAspect
  rw [hm, hs, hd]
  unfold QImage.copy
  have c1 : ¬ (4096 * img.height = 0 ∧ img.height = 0) := by omega
  have c2 : ¬ (4096 * img.height ≤ 0 ∨ img.height ≤ 0) := by omega
  simp only [hwide, if_true, hnull, c1, c2, if_false, Bool.false_eq_true]

theorem cropAspect_wide_centered (img : QImage) (hnull : img.null = false)
    (hh : 0 < img.height) (hwide : img.width > 4096 * img.height) (hw32 : isInt32 img.width) :
    (BackgroundWidget.cropAspect img).width = 4096 * img.height ∧
      (BackgroundWidget.cropAspect img).height = img.height ∧
      (BackgroundWidget.cropAspect img).top = img.top ∧
      img.left ≤ (BackgroundWidget.cropAspect img).left ∧
      (BackgroundWidget.cropAspect img).left + (BackgroundWidget.cropAspect img).width
        ≤ img.left + img.width ∧
      (BackgroundWidget.cropAspect img).left - img.left
        ≤ img.left + img.width
          - ((BackgroundWidget.cropAspect img).left + (BackgroundWidget.cropAspect img).width) ∧
      img.left + img.width
          - ((BackgroundWidget.cropAspect img).left + (BackgroundWidget.cropAspect img).width)
        ≤ (BackgroundWidget.cropAspect img).left - img.left + 1 := by
  rw [cropAspect_wide img hnull hh hwide hw32]
  dsimp only
  omega

theorem cropAspect_examples :
    BackgroundWidget.cropAspect ⟨false, 0, 0, 300000, 50⟩ = ⟨false, 47600, 0, 204800, 50⟩ ∧
      BackgroundWidget.cropAspect ⟨false, 0, 0, 10000, 50⟩ = ⟨false, 0, 0, 10000, 50⟩ := by
  constructor <;> decide

theorem cropAspect_tall (img : QImage) (hnull : img.null = false) (hw : 0 < img.width)
    (htall : img.height > 4096 * img.width) (hh19 : img.height < 524288) :
    BackgroundWidget.cropAspect img
      = ⟨false, img.left + 0, img.top + (img.height - 4096 * img.width) / 2,
          img.width, 4096 * img.width⟩ := by
  have hm : mul32 4096 img.width = 4096 * img.width :=
    mul32_4096_small _ hw (by omega)
  have hm2 : mul32 4096 img.height = 4096 * img.height :=
    mul32_4096_small _ (by omega) hh19
  have hs : sub32 img.height (4096 * img.width) = img.height - 4096 * img.width := by
    unfold sub32
    apply wrap32_of_isInt32
    unfold isInt32
    omega
  have hd : div32 (img.height - 4096 * img.width) 2 = (img.height - 4096 * img.width) / 2 :=
    div32_two_of_nonneg _ (by omega) (by omega)
  unfold BackgroundWidget.cropAspect
  rw [hm, hm2, hs, hd]
  unfold QImage.copy
  have c0 : ¬ img.width > 4096 * img.height := by omega
  have c1 : ¬ (img.width = 0 ∧ 4096 * img.width = 0) := by omega
  have c2 : ¬ (img.width ≤ 0 ∨ 4096 * img.width ≤ 0) := by omega
  simp only [c0, htall, if_true, hnull, c1, c2, if_false, Bool.false_eq_true]

theorem cropAspect_keep (img : QImage) (hw : 0 < img.width) (hh : 0 < img.height)
    (hw19 : img.width < 524288) (hh19 : img.height < 524288)
    (h1 : img.width ≤ 4096 * img.height) (h2 : img.height ≤ 4096 * img.width) :
    BackgroundWidget.cropAspect img = img := by
  unfold BackgroundWidget.cropAspect
  rw [mul32_4096_small _ hh hh19, mul32_4096_small _ hw hw19]
  have c1 : ¬ img.width > 4096 * img.height := by omega
  have c2 : ¬ img.height > 4096 * img.width := by omega
  simp only [c1, c2, if_false]

theorem cropAspect_in_range (img : QImage) (hnull : img.null = false)
    (hw : 0 < img.width) (hh : 0 < img.height)
    (hw19 : img.width < 524288) (hh19 : img.height < 524288) :
    (BackgroundWidget.cropAspect img).null = false ∧
      (BackgroundWidget.cropAspect img).width ≤ 4096 * (BackgroundWidget.cropAspect img).height ∧
      (BackgroundWidget.cropAspect img).height ≤ 4096 * (BackgroundWidget.cropAspect img).width := by
  by_cases c1 : img.width > 4096 * img.height
  · rw [cropAspect_wide img hnull hh c1 (by unfold isInt32; omega)]
    refine ⟨rfl, ?_, ?_⟩ <;> dsimp only <;> omega
  · by_cases c2 : img.height > 4096 * img.width
    · rw [cropAspect_tall img hnull hw c2 hh19]
      refine ⟨rfl, ?_, ?_⟩ <;> dsimp only <;> omega
    · rw [cropAspect_keep img hw hh hw19 hh19 (by omega) (by omega)]
      exact ⟨hnull, by omega, by omega⟩

/-! ## The aspect-ratio step where `4096 * side` does not fit -/

theorem cropAspect_thread :
    mul32 4096 1048576 = 0 ∧
      BackgroundWidget.cropAspect ⟨false, 0, 0, 1, 1048576⟩ = QImage.nullImage := by
  constructor <;> decide

/-! ## The aspect-ratio step on every image a `QImage` can hold -/

theorem wrap32_4096_pos (z : Int) (hz : 0 < z) (hc : 0 < mul32 4096 z) :
    4096 ≤ mul32 4096 z ∧ mul32 4096 z ≤ 4096 * z := by
  unfold mul32 wrap32 at *
  omega

theorem wrap32_4096_le (z : Int) (hz : 0 < z) : mul32 4096 z ≤ 4096 * z := by
  unfold mul32 wrap32
  omega

theorem cropAspect_ratio (img : QImage) (hnull : img.null = false)
    (hw : 0 < img.width) (hh : 0 < img.height) (hfit : img.holdable) :
    (BackgroundWidget.cropAspect img).width ≤ 4096 * (BackgroundWidget.cropAspect img).height ∧
      (BackgroundWidget.cropAspect img).height
        ≤ 4096 * (BackgroundWidget.cropAspect img).width := by
  unfold QImage.holdable at hfit
  unfold BackgroundWidget.cropAspect
  by_cases c1 : img.width > mul32 4096 img.height
  · simp only [c1, if_true]
    unfold QImage.copy
    have n0 : ¬ (mul32 4096 img.height = 0 ∧ img.height = 0) := by omega
    simp only [hnull, n0, if_false, Bool.false_eq_true]
    by_cases c3 : mul32 4096 img.height ≤ 0 ∨ img.height ≤ 0
    · simp only [c3, if_true]
      exact ⟨by decide, by decide⟩
    · simp only [c3, if_false]
      have hpos : 0 < mul32 4096 img.height := by omega
      have hb := wrap32_4096_pos img.height hh hpos
      refine ⟨hb.2, ?_⟩
      by_contra hcon
      have h1 : 4097 ≤ img.width := by omega
      have h2 : 16777217 ≤ img.height := by omega
      have h3 : 4097 * 16777217 ≤ img.width * img.height := by nlinarith
      omega
  · by_cases c2 : img.height > mul32 4096 img.width
    · simp only [c1, c2, if_true, if_false]
      unfold QImage.copy
      have n0 : ¬ (img.width = 0 ∧ mul32 4096 img.width = 0) := by omega
      simp only [hnull, n0, if_false, Bool.false_eq_true]
      by_cases c3 : img.width ≤ 0 ∨ mul32 4096 img.width ≤ 0
      · simp only [c3, if_true]
        exact ⟨by decide, by decide⟩
      · simp only [c3, if_false]
        have hpos : 0 < mul32 4096 img.width := by omega
        have hb := wrap32_4096_pos img.width hw hpos
        refine ⟨?_, hb.2⟩
        by_contra hcon
        have h1 : 16777217 ≤ img.width := by omega
        have h2 : 4097 ≤ img.height := by omega
        have h3 : 16777217 * 4097 ≤ img.width * img.height := by nlinarith
        omega
    · simp only [c1, c2, if_false]
      have b1 := wrap32_4096_le img.height hh
      have b2 := wrap32_4096_le img.width hw
      constructor <;> omega

theorem cropAspect_beyond_capacity :
    mul32 4096 17825793 = 4096 ∧
      BackgroundWidget.cropAspect ⟨false, 0, 0, 4097, 17825793⟩
        = ⟨false, 0, 0, 4096, 17825793⟩ := by
  constructor <;> decide

/-! ## What `updateImage` adds to the trace -/

theorem paintsAfter_refl (s : World E) : paintsAfter s s :=
  ⟨[], by simp, by simp⟩

theorem paintsAfter_trans {s t u : World E} (h1 : paintsAfter s t) (h2 : paintsAfter t u) :
    paintsAfter s u := by
  obtain ⟨l1, e1, p1⟩ := h1
  obtain ⟨l2, e2, p2⟩ := h2
  refine ⟨l1 ++ l2, by rw [e2, e1, List.append_assoc], ?_⟩
  intro e he
  rcases List.mem_append.mp he with h | h
  · exact p1 e h
  · exact p2 e h

theorem paintsAfter_repaintThumb (s : World E) :
    paintsAfter s (BackgroundRow.repaintThumb s) := by
  refine ⟨[Event.thumbnail, Event.rtlupdate], rfl, ?_⟩
  intro e he
  simpa using he

theorem paintsAfter_loadingOutcome (s : World E) : paintsAfter s (loadingOutcome s).2 := by
  unfold loadingOutcome
  split
  · split
    · split
      · exact paintsAfter_refl s
      · exact paintsAfter_repaintThumb _
    · exact paintsAfter_refl s
  · exact paintsAfter_refl s

theorem paintsAfter_startOutcome (s : World E) : paintsAfter s (startOutcome s) := by
  unfold startOutcome
  simp only []
  split
  · split
    · exact paintsAfter_trans (paintsAfter_loadingOutcome s) (paintsAfter_loadingOutcome _)
    · exact paintsAfter_loadingOutcome s
  · exact paintsAfter_loadingOutcome s

theorem paintsAfter_updateOutcome (s : World E) : paintsAfter s (updateOutcome s) := by
  unfold updateOutcome
  simp only []
  split
  · exact paintsAfter_trans (paintsAfter_repaintThumb s)
      (paintsAfter_trans (paintsAfter_loadingOutcome _) (paintsAfter_startOutcome _))
  · exact paintsAfter_trans (paintsAfter_repaintThumb s) (paintsAfter_loadingOutcome _)

/-! ## The claims -/

/-- C6: `onAdaptive` does nothing at all when the global wide-layout flag already
equals the checkbox value (no broadcast, no settings write, flag unchanged); when
they differ it sets the flag to the checkbox value and adds exactly one
`Adaptive::Changed` broadcast followed by exactly one `Local::writeUserSettings`. -/
theorem onAdaptive_writes_only_on_change (s : World E) :
    (s.adaptiveForWide = s.adaptiveChecked → BackgroundWidget.onAdaptive s = s) ∧
    (s.adaptiveForWide ≠ s.adaptiveChecked →
      (BackgroundWidget.onAdaptive s).adaptiveForWide = s.adaptiveChecked ∧
      (BackgroundWidget.onAdaptive s).log
        = s.log ++ [Event.adaptiveChanged, Event.writeUserSettings] ∧
      (BackgroundWidget.onAdaptive s).log.count Event.adaptiveChanged
        = s.log.count Event.adaptiveChanged + 1 ∧
      (BackgroundWidget.onAdaptive s).log.count Event.writeUserSettings
        = s.log.count Event.writeUserSettings + 1) := by
  constructor
  · intro h
    unfold BackgroundWidget.onAdaptive
    simp [h]
  · intro h
    have hlog : (BackgroundWidget.onAdaptive s).log
        = s.log ++ [Event.adaptiveChanged, Event.writeUserSettings] := by
      unfold BackgroundWidget.onAdaptive BackgroundWidget.onAdaptiveChanged
      simp only [h, ne_eq, not_false_eq_true, if_true]
      split <;> simp
    refine ⟨?_, hlog, ?_, ?_⟩
    · unfold BackgroundWidget.onAdaptive BackgroundWidget.onAdaptiveChanged
      simp only [h, ne_eq, not_false_eq_true, if_true]
      split <;> rfl
    · rw [hlog]
      simp [List.count_append, List.count_cons]
    · rw [hlog]
      simp [List.count_append, List.count_cons]

/-- C6, at the sample state (flag off, checkbox on) and at the state it leads to. -/
theorem onAdaptive_writes_only_on_change_witness :
    (BackgroundWidget.onAdaptive sampleWorld).adaptiveForWide = true ∧
    (BackgroundWidget.onAdaptive sampleWorld).log
      = [Event.adaptiveChanged, Event.writeUserSettings] ∧
    BackgroundWidget.onAdaptive (BackgroundWidget.onAdaptive sampleWorld)
      = BackgroundWidget.onAdaptive sampleWorld :=
  ⟨((onAdaptive_writes_only_on_change sampleWorld).2 (by decide)).1,
   ((onAdaptive_writes_only_on_change sampleWorld).2 (by decide)).2.1,
   (onAdaptive_writes_only_on_change (BackgroundWidget.onAdaptive sampleWorld)).1 (by decide)⟩

/-- C7: the constructor of `BackgroundRow` returns, and after it, after every
`ApplyingTheme` notification the row handles, and after any run of
`checkNonDefaultTheme`, the revert-to-default link exists exactly when
`Local::hasTheme()` is true, whatever the link was before. -/
theorem useDefaultTheme_mirrors_hasTheme (n : Nat) (s : World E) (tiled : Bool) :
    (∃ s', BackgroundRow.construct (n + 2) s = Except.ok s' ∧
      s'.hasTheme = s.hasTheme ∧ s'.useDefaultTheme = s.hasTheme) ∧
    ((BackgroundRow.onBackgroundUpdate ⟨BackgroundUpdateType.ApplyingTheme, tiled⟩ s).hasTheme
        = s.hasTheme ∧
      (BackgroundRow.onBackgroundUpdate
        ⟨BackgroundUpdateType.ApplyingTheme, tiled⟩ s).useDefaultTheme = s.hasTheme) ∧
    (BackgroundRow.checkNonDefaultTheme s).useDefaultTheme = s.hasTheme := by
  refine ⟨?_, ?_, (checkNonDefaultTheme_link s).1⟩
  · refine ⟨BackgroundRow.checkNonDefaultTheme
      (updateOutcome { s with useDefaultTheme := false, radial := E.radialInit }), ?_, ?_, ?_⟩
    · unfold BackgroundRow.construct
      rw [updateImage_eq]
    · rw [(checkNonDefaultTheme_link _).2, updateOutcome_hasTheme]
    · rw [(checkNonDefaultTheme_link _).1, updateOutcome_hasTheme]
  · unfold BackgroundRow.onBackgroundUpdate
    simp only [if_true]
    exact ⟨(checkNonDefaultTheme_link s).2, (checkNonDefaultTheme_link s).1⟩

/-- C10: `updateImage` returns, and for a background pixmap of width `w >= 0` and
height `h >= 0` the source rectangle `(sx, sy, s, s)` it draws into the thumbnail is
the largest centered square: `s = min w h`, `sx = floor((w - h) / 2)` if `w > h` else
`0`, `sy = floor((h - w) / 2)` if `h > w` else `0`; the square lies inside the pixmap
and the two margins along either dimension differ by at most one pixel. -/
theorem updateImage_largest_centered_square (n : Nat) (s : World E)
    (hw : 0 ≤ s.pixmap.width) (hh : 0 ≤ s.pixmap.height)
    (hw32 : isInt32 s.pixmap.width) (hh32 : isInt32 s.pixmap.height) :
    ∃ s', BackgroundRow.updateImage (n + 2) s = Except.ok s' ∧
      s'.background.pix = s.pixmap ∧
      s'.background.s = min s.pixmap.width s.pixmap.height ∧
      s'.background.sx
        = (if s.pixmap.width > s.pixmap.height
            then (s.pixmap.width - s.pixmap.height) / 2 else 0) ∧
      s'.background.sy
        = (if s.pixmap.height > s.pixmap.width
            then (s.pixmap.height - s.pixmap.width) / 2 else 0) ∧
      0 ≤ s'.background.sx ∧ 0 ≤ s'.background.sy ∧
      s'.background.sx + s'.background.s ≤ s.pixmap.width ∧
      s'.background.sy + s'.background.s ≤ s.pixmap.height ∧
      s'.background.sx ≤ s.pixmap.width - (s'.background.sx + s'.background.s) ∧
      s.pixmap.width - (s'.background.sx + s'.background.s) ≤ s'.background.sx + 1 ∧
      s'.background.sy ≤ s.pixmap.height - (s'.background.sy + s'.background.s) ∧
      s.pixmap.height - (s'.background.sy + s'.background.s) ≤ s'.background.sy + 1 := by
  refine ⟨updateOutcome s, updateImage_eq n s, ?_⟩
  rw [updateOutcome_background]
  have hr := sourceRect_spec _ _ hw hh hw32 hh32
  have h1 : (BackgroundRow.repaintThumb s).background.sx
      = (BackgroundRow.sourceRect s.pixmap.width s.pixmap.height).1 := rfl
  have h2 : (BackgroundRow.repaintThumb s).background.sy
      = (BackgroundRow.sourceRect s.pixmap.width s.pixmap.height).2.1 := rfl
  have h3 : (BackgroundRow.repaintThumb s).background.s
      = (BackgroundRow.sourceRect s.pixmap.width s.pixmap.height).2.2 := rfl
  have h4 : (BackgroundRow.repaintThumb s).background.pix = s.pixmap := rfl
  rw [h1, h2, h3, h4, hr]
  refine ⟨rfl, rfl, rfl, rfl, ?_⟩
  dsimp only
  by_cases c1 : s.pixmap.width > s.pixmap.height
  · have c2 : ¬ s.pixmap.height > s.pixmap.width := by omega
    have hmin : min s.pixmap.width s.pixmap.height = s.pixmap.height := min_eq_right (by omega)
    simp only [c1, c2, if_true, if_false, hmin]
    omega
  · have hmin : min s.pixmap.width s.pixmap.height = s.pixmap.width := min_eq_left (by omega)
    by_cases c2 : s.pixmap.height > s.pixmap.width
    · simp only [c1, c2, if_true, if_false, hmin]
      omega
    · simp only [c1, c2, if_false, hmin]
      omega

/-- C10, on the 1920 x 1080 background of the sample state: the square drawn is
`(420, 0, 1080, 1080)`. -/
theorem updateImage_largest_centered_square_witness :
    ∃ s', BackgroundRow.updateImage 2 sampleWorld = Except.ok s' ∧
      s'.background.s = 1080 ∧ s'.background.sx = 420 ∧ s'.background.sy = 0 := by
  obtain ⟨s', h0, _, h2, h3, h4, _⟩ :=
    updateImage_largest_centered_square 0 sampleWorld (by decide) (by decide)
      (by decide) (by decide)
  exact ⟨s', h0, h2.trans (by decide), h3.trans (by decide), h4.trans (by decide)⟩

/-- C8: `radialStart` returns and leaves the spinner as it was whenever the spinner
is already animating or no background load is in progress, so a spinner that is not
animating stays so when nothing loads; the spinner changes only when a load was in
progress and it was not animating, it is also left alone when `radialLoading()`
answers false because the poll found the load finished, and when `radialLoading()`
answers true for a spinner that is not animating it is started with the progress the
provider reports at that moment (and then updated once if the time shift is not
zero). -/
theorem radialStart_noop_unless_loading (n : Nat) (s : World E) :
    ∃ s', BackgroundRow.radialStart (n + 1) s = Except.ok s' ∧
      ((E.animating s.radial = true ∨ loadingNow s = false) → s'.radial = s.radial) ∧
      ((E.animating s.radial = false ∧ loadingNow s = false) →
        E.animating s'.radial = false) ∧
      (s'.radial ≠ s.radial → loadingNow s = true ∧ E.animating s.radial = false) ∧
      (∀ t, BackgroundRow.radialLoading (n + 1) s = Except.ok (false, t) →
        s'.radial = s.radial) ∧
      (∀ m, s.main = some m → E.chatBackgroundLoading m = true →
        E.chatBackgroundLoading (E.checkChatBackground m) = true →
        E.animating s.radial = false →
        (BackgroundRow.radialTimeShift E = 0 →
          s'.radial
            = E.start (E.chatBackgroundProgress (E.checkChatBackground m)) s.now s.radial) ∧
        (BackgroundRow.radialTimeShift E ≠ 0 →
          ∃ prg finished, s'.radial
            = E.update prg finished (s.now + BackgroundRow.radialTimeShift E)
                (E.start (E.chatBackgroundProgress (E.checkChatBackground m))
                  s.now s.radial))) := by
  refine ⟨startOutcome s, radialStart_eq n s, startOutcome_radial_unchanged s, ?_, ?_, ?_, ?_⟩
  · intro h
    rw [startOutcome_radial_unchanged s (Or.inr h.2)]
    exact h.1
  · intro hne
    by_contra hcon
    apply hne
    apply startOutcome_radial_unchanged
    cases ha : E.animating s.radial with
    | true => exact Or.inl rfl
    | false =>
      cases hl : loadingNow s with
      | false => exact Or.inr rfl
      | true => exact absurd ⟨hl, ha⟩ hcon
  · intro t ht
    rw [radialLoading_eq] at ht
    have hlo : (loadingOutcome s).1 = false := congrArg Prod.fst (Except.ok.inj ht)
    unfold startOutcome
    simp only [hlo, Bool.false_and, Bool.false_eq_true, if_false]
    exact loadingOutcome_radial s
  · intro m hm h1 h2 ha
    have hlo : loadingOutcome s = (true, { s with main := some (E.checkChatBackground m) }) := by
      unfold loadingOutcome
      rw [hm]
      simp [h1, h2]
    unfold startOutcome
    simp only [hlo, ha, Bool.not_false, Bool.and_self, if_true]
    constructor
    · intro h0
      simp only [h0, ne_eq, not_true_eq_false, if_false]
      rfl
    · intro h0
      simp only [h0, ne_eq, not_false_eq_true, if_true]
      rw [loadingOutcome_radial, loadingOutcome_now]
      exact ⟨_, _, rfl⟩

/-- C8, on the sample state (no load, spinner idle: nothing happens) and on the
sample state with a load that outlasts the polls (the spinner is started with the
progress 92 reported after the first poll, then updated at time 1000 + 350). -/
theorem radialStart_noop_unless_loading_witness :
    (∃ s', BackgroundRow.radialStart 1 sampleWorld = Except.ok s' ∧
      s'.radial = sampleWorld.radial) ∧
    (∃ s' prg finished,
      BackgroundRow.radialStart 1 ({ sampleWorld with main := some (9 : Nat) })
        = Except.ok s' ∧
      s'.radial = sampleEnv.update prg finished 1350 (sampleEnv.start 92 1000 (false, 0))) := by
  constructor
  · obtain ⟨s', h0, h1, _⟩ := radialStart_noop_unless_loading 0 sampleWorld
    exact ⟨s', h0, h1 (Or.inr rfl)⟩
  · obtain ⟨s', h0, _, _, _, _, h4⟩ :=
      radialStart_noop_unless_loading 0
        ({ sampleWorld with main := some (9 : Nat) } : World sampleEnv)
    obtain ⟨prg, finished, h5⟩ := (h4 9 rfl rfl rfl rfl).2 (by decide)
    exact ⟨s', prg, finished, h0, h5⟩

/-- C9: when the provider, once it reports not-loading, keeps reporting not-loading,
the `radialLoading` call that sees the load finish (loading before
`checkChatBackground`, not loading after) returns false after exactly one thumbnail
regeneration, the recursion through `updateImage` ending at depth one; afterwards
every `radialLoading` call returns false and changes nothing, and any run of later
`step_radial` ticks leaves the number of regenerations where it was. -/
theorem radialLoading_finish_regenerates_once (n k : Nat) (s : World E) (m : E.Main)
    (hm : s.main = some m) (h1 : E.chatBackgroundLoading m = true)
    (h2 : E.chatBackgroundLoading (E.checkChatBackground m) = false)
    (ticks : List (Option E.Main × Int × Bool))
    (hticks : ∀ x ∈ ticks, providerLoading E x.1 = false) :
    ∃ s', BackgroundRow.radialLoading (n + 1) s = Except.ok (false, s') ∧
      regenerations s' = regenerations s + 1 ∧
      loadingNow s' = false ∧
      (∀ (j : Nat) (t : World E), loadingNow t = false →
        BackgroundRow.radialLoading j t = Except.ok (false, t)) ∧
      ∃ t, laterTicks k ticks s' = Except.ok t ∧ regenerations t = regenerations s + 1 := by
  have hlo : loadingOutcome s
      = (false, BackgroundRow.repaintThumb { s with main := some (E.checkChatBackground m) }) := by
    unfold loadingOutcome
    rw [hm]
    simp [h1, h2]
  have hreg : regenerations
      (BackgroundRow.repaintThumb ({ s with main := some (E.checkChatBackground m) } : World E))
      = regenerations s + 1 := regenerations_repaintThumb _
  refine ⟨_, (radialLoading_eq n s).trans (congrArg Except.ok hlo), hreg, h2, ?_, ?_⟩
  · intro j t ht
    exact radialLoadingWith_idle _ t ht
  · obtain ⟨t, ht, hrt⟩ := laterTicks_idle k ticks hticks
      (BackgroundRow.repaintThumb ({ s with main := some (E.checkChatBackground m) } : World E))
    exact ⟨t, ht, hrt.trans hreg⟩

/-- C9, on the sample state with a load that the next poll finds finished, followed
by three timer ticks. -/
theorem radialLoading_finish_regenerates_once_witness :
    ∃ s', BackgroundRow.radialLoading 1 sampleLoading = Except.ok (false, s') ∧
      regenerations s' = 1 ∧
      ∃ t, laterTicks 0 [(some (0 : Nat), 1016, true), (none, 1032, true),
          (some (0 : Nat), 1048, false)] s' = Except.ok t ∧ regenerations t = 1 := by
  obtain ⟨s', h0, h1, _, _, h4⟩ :=
    radialLoading_finish_regenerates_once 0 0 sampleLoading (1 : Nat) rfl rfl rfl
      [(some (0 : Nat), 1016, true), (none, 1032, true), (some (0 : Nat), 1048, false)]
      (by decide)
  exact ⟨s', h0, h1, h4⟩

/-- C4: a completion whose `queryId` differs from the stored
`_chooseFromFileQueryId` leaves the whole state as it was: the stored id, the
background image, the tile flag and checkbox, the thumbnail, and the trace of calls
(no theme is applied, nothing is set). -/
theorem notifyFileQueryUpdated_ignores_stale (fuel : Nat) (update : QueryUpdate)
    (s : World E) (h : s.chooseFromFileQueryId ≠ update.queryId) :
    BackgroundWidget.notifyFileQueryUpdated fuel update s = Except.ok s := by
  unfold BackgroundWidget.notifyFileQueryUpdated
  simp [h]

/-- C4, on the sample state (query 7 outstanding) with a completion for query 8. -/
theorem notifyFileQueryUpdated_ignores_stale_witness :
    BackgroundWidget.notifyFileQueryUpdated 0 ⟨8, ["wide.png"], []⟩ sampleWorld
      = Except.ok sampleWorld :=
  notifyFileQueryUpdated_ignores_stale 0 ⟨8, ["wide.png"], []⟩ sampleWorld (by decide)

/-- C5: for a matching completion whose first path is not a theme file and whose
payload decodes to a null image or to one with a non-positive width or height,
`notifyFileQueryUpdated` returns without an error and only clears the stored query
id: the store's image and tile flag, the tile checkbox, the thumbnail and the trace
of calls (so no `setImage`) are as before. -/
theorem notifyFileQueryUpdated_rejects_bad_image (fuel : Nat) (update : QueryUpdate)
    (s : World E) (p : String) (ps : List String)
    (hid : s.chooseFromFileQueryId = update.queryId)
    (hpaths : update.filePaths = p :: ps) (hnot : E.endsWithTheme p = false)
    (hbad : (BackgroundWidget.decodePayload E update p).null = true ∨
      (BackgroundWidget.decodePayload E update p).width ≤ 0 ∨
      (BackgroundWidget.decodePayload E update p).height ≤ 0) :
    ∃ s', BackgroundWidget.notifyFileQueryUpdated fuel update s = Except.ok s' ∧
      s' = { s with chooseFromFileQueryId := 0 } ∧
      s'.pixmap = s.pixmap ∧ s'.tile = s.tile ∧ s'.tileChecked = s.tileChecked ∧
      s'.background = s.background ∧ s'.log = s.log := by
  refine ⟨{ s with chooseFromFileQueryId := 0 }, ?_, rfl, rfl, rfl, rfl, rfl, rfl⟩
  unfold BackgroundWidget.notifyFileQueryUpdated
  have hcond : ((BackgroundWidget.decodePayload E update p).null ||
      decide ((BackgroundWidget.decodePayload E update p).width ≤ 0) ||
      decide ((BackgroundWidget.decodePayload E update p).height ≤ 0)) = true := by
    rcases hbad with h | h | h <;> simp [h]
  simp only [hid, hpaths, ne_eq, not_true_eq_false, if_false, List.isEmpty_cons,
    Bool.false_and, List.head?_cons, hnot, hcond, if_true, Bool.false_eq_true]

/-- C5, on the sample state with a file the decoder cannot read. -/
theorem notifyFileQueryUpdated_rejects_bad_image_witness :
    ∃ s', BackgroundWidget.notifyFileQueryUpdated 0 ⟨7, ["broken.png"], []⟩ sampleWorld
        = Except.ok s' ∧
      s'.pixmap = sampleWorld.pixmap ∧ s'.tile = true ∧ s'.log = [] := by
  obtain ⟨s', h0, _, h2, h3, _, _, h6⟩ :=
    notifyFileQueryUpdated_rejects_bad_image 0 ⟨7, ["broken.png"], []⟩ sampleWorld
      "broken.png" [] rfl rfl (by decide) (Or.inl (by decide))
  exact ⟨s', h0, h2, h3, h6⟩

/-- C3: a matching completion with remote content and no file path. The model of
`notifyFileQueryUpdated` stops at `update.filePaths.front()`, taken of the empty
list before the remote content is looked at. -/
theorem notifyFileQueryUpdated_content_only_front :
    BackgroundWidget.notifyFileQueryUpdated 2 ⟨7, [], [137, 80, 78, 71]⟩ sampleWorld
      = Except.error Fault.frontOfEmptyList :=
  notify_front_of_empty 2 ⟨7, [], [137, 80, 78, 71]⟩ sampleWorld rfl rfl (by decide)

/-- C1: for every matching completion whose first path is not a theme file and
whose payload decodes to a non-null image of positive width and height (an image a
`QImage` can hold), `notifyFileQueryUpdated` returns, `setImage` is called exactly
once, and the image handed to it (which becomes the store's image) has
`width <= 4096 * height` and `height <= 4096 * width`. Where `4096 * side` wraps in
an `int` the image handed over is the null image of size 0 x 0, for which both
bounds hold. -/
theorem notifyFileQueryUpdated_hands_bounded_ratio (n : Nat) (update : QueryUpdate)
    (s : World E) (p : String) (ps : List String)
    (hid : s.chooseFromFileQueryId = update.queryId)
    (hpaths : update.filePaths = p :: ps) (hnot : E.endsWithTheme p = false)
    (hnull : (BackgroundWidget.decodePayload E update p).null = false)
    (hw : 0 < (BackgroundWidget.decodePayload E update p).width)
    (hh : 0 < (BackgroundWidget.decodePayload E update p).height)
    (hfit : (BackgroundWidget.decodePayload E update p).holdable) :
    ∃ s' handed rest,
      BackgroundWidget.notifyFileQueryUpdated (n + 2) update s = Except.ok s' ∧
      handed = BackgroundWidget.cropAspect (BackgroundWidget.decodePayload E update p) ∧
      s'.log = s.log ++ Event.setImage handed :: rest ∧
      (∀ e ∈ rest, e = Event.setTile false ∨ e = Event.thumbnail ∨ e = Event.rtlupdate) ∧
      s'.pixmap = handed ∧
      handed.width ≤ 4096 * handed.height ∧
      handed.height ≤ 4096 * handed.width := by
  have hr := cropAspect_ratio _ hnull hw hh hfit
  obtain ⟨l, hl, hp⟩ := paintsAfter_updateOutcome
    (BackgroundWidget.setTileChecked false
      (BackgroundWidget.setImage
        (BackgroundWidget.cropAspect (BackgroundWidget.decodePayload E update p))
        { s with chooseFromFileQueryId := 0 }))
  have hpre : ∃ l0,
      (BackgroundWidget.setTileChecked false
        (BackgroundWidget.setImage
          (BackgroundWidget.cropAspect (BackgroundWidget.decodePayload E update p))
          { s with chooseFromFileQueryId := 0 })).log
        = s.log ++ Event.setImage
            (BackgroundWidget.cropAspect (BackgroundWidget.decodePayload E update p)) :: l0 ∧
      (∀ e ∈ l0, e = Event.setTile false) ∧
      (BackgroundWidget.setTileChecked false
        (BackgroundWidget.setImage
          (BackgroundWidget.cropAspect (BackgroundWidget.decodePayload E update p))
          { s with chooseFromFileQueryId := 0 })).pixmap
        = BackgroundWidget.cropAspect (BackgroundWidget.decodePayload E update p) := by
    unfold BackgroundWidget.setTileChecked BackgroundWidget.onTile BackgroundWidget.setImage
    cases hc : s.tileChecked with
    | false => exact ⟨[], by simp [hc], by simp, by simp [hc]⟩
    | true => exact ⟨[Event.setTile false], by simp [hc], by simp, by simp [hc]⟩
  obtain ⟨l0, hl0, hp0, hpix0⟩ := hpre
  refine ⟨_, _, l0 ++ l, notify_accept n update s p ps hid hpaths hnot hnull hw hh, rfl,
    ?_, ?_, ?_, hr.1, hr.2⟩
  · rw [hl, hl0]
    simp
  · intro e he
    rcases List.mem_append.mp he with h | h
    · exact Or.inl (hp0 e h)
    · exact Or.inr (hp e h)
  · rw [updateOutcome_pixmap]
    exact hpix0

/-- C1, on the sample state with a 300000 x 50 file (cropped to 204800 x 50 from
column 47600) and with a 1 x 1048576 file, for which `4096 * 1048576` wraps to 0 and
the null image is handed over. -/
theorem notifyFileQueryUpdated_hands_bounded_ratio_witness :
    (∃ s', BackgroundWidget.notifyFileQueryUpdated 2 ⟨7, ["wide.png"], []⟩ sampleWorld
        = Except.ok s' ∧
      s'.pixmap = ⟨false, 47600, 0, 204800, 50⟩ ∧
      s'.pixmap.width ≤ 4096 * s'.pixmap.height ∧
      s'.pixmap.height ≤ 4096 * s'.pixmap.width) ∧
    (∃ s', BackgroundWidget.notifyFileQueryUpdated 2 ⟨7, ["thread.png"], []⟩ sampleWorld
        = Except.ok s' ∧
      s'.pixmap = QImage.nullImage ∧
      s'.pixmap.width ≤ 4096 * s'.pixmap.height ∧
      s'.pixmap.height ≤ 4096 * s'.pixmap.width) := by
  constructor
  · obtain ⟨s', handed, rest, h0, hhanded, _, _, hpix, hr1, hr2⟩ :=
      notifyFileQueryUpdated_hands_bounded_ratio 0 ⟨7, ["wide.png"], []⟩ sampleWorld
        "wide.png" [] rfl rfl (by decide) (by decide) (by decide) (by decide) (by decide)
    refine ⟨s', h0, ?_, ?_, ?_⟩
    · rw [hpix, hhanded]
      decide
    · rw [hpix]
      exact hr1
    · rw [hpix]
      exact hr2
  · obtain ⟨s', handed, rest, h0, hhanded, _, _, hpix, hr1, hr2⟩ :=
      notifyFileQueryUpdated_hands_bounded_ratio 0 ⟨7, ["thread.png"], []⟩ sampleWorld
        "thread.png" [] rfl rfl (by decide) (by decide) (by decide) (by decide) (by decide)
    refine ⟨s', h0, ?_, ?_, ?_⟩
    · rw [hpix, hhanded]
      decide
    · rw [hpix]
      exact hr1
    · rw [hpix]
      exact hr2

/-- C2: two decoded images with neither side more than 4096 times the other. For
5000 x 1048577, `4096 * 1048577` wraps to 4096 in an `int`, the width test
`5000 > 4096` succeeds, and the image handed to `setImage` is the crop of width 4096
starting at column 452 instead of the image itself. For 200 x 524288,
`4096 * 524288` wraps to `-2147483648`, the width test succeeds again, the crop is
asked with that negative width, and the null image is handed to `setImage`. -/
theorem notifyFileQueryUpdated_overflow_crops_plain :
    (mul32 4096 1048577 = 4096 ∧
      (5000 : Int) ≤ 4096 * 1048577 ∧ (1048577 : Int) ≤ 4096 * 5000 ∧
      ∃ s', BackgroundWidget.notifyFileQueryUpdated 2 ⟨7, ["strip.png"], []⟩ sampleWorld
          = Except.ok s' ∧
        Event.setImage ⟨false, 452, 0, 4096, 1048577⟩ ∈ s'.log ∧
        s'.pixmap = ⟨false, 452, 0, 4096, 1048577⟩) ∧
    (mul32 4096 524288 = -2147483648 ∧
      (200 : Int) ≤ 4096 * 524288 ∧ (524288 : Int) ≤ 4096 * 200 ∧
      ∃ s', BackgroundWidget.notifyFileQueryUpdated 2 ⟨7, ["slab.png"], []⟩ sampleWorld
          = Except.ok s' ∧
        Event.setImage QImage.nullImage ∈ s'.log ∧
        s'.pixmap = QImage.nullImage) := by
  constructor
  · refine ⟨by decide, by decide, by decide, _,
      notify_accept 0 ⟨7, ["strip.png"], []⟩ sampleWorld "strip.png" []
        rfl rfl (by decide) (by decide) (by decide) (by decide), ?_, ?_⟩
    · decide
    · decide
  · refine ⟨by decide, by decide, by decide, _,
      notify_accept 0 ⟨7, ["slab.png"], []⟩ sampleWorld "slab.png" []
        rfl rfl (by decide) (by decide) (by decide) (by decide), ?_, ?_⟩
    · decide
    · decide

end Settings
